import Mathlib

/-!
Verification of the floatty pty supervisor against its specification.

The definitions below are a shallow embedding of `src/poller.rs`,
`src/parent.rs` and `src/main.rs`.  Machine bytes are `Nat`s, owned file
handles are their raw file-descriptor numbers, and the operating-system
interactions (readiness notifications, `read` results, `sigprocmask`,
`waitpid`) are passed in explicitly as scripts/parameters so that every
control path of the Rust code is represented by a computable Lean function.
-/

namespace Floatty

/-- `Vec<u8>` of the source (`DataBuf` in `lib.rs`); bytes as `Nat`s. -/
abbrev DataBuf := List Nat

/-- `const BUFFER_SIZE: usize = 4096;` (`poller.rs` line 19). -/
def BUFFER_SIZE : Nat := 4096

/-- Outcome of one `self.read(&mut buffer)` call on a nonblocking file
(`poller.rs` lines 58-76): `Ok(count)` carries the bytes placed in the
buffer, `WouldBlock` is the would-block error kind, `err` any other
I/O error. -/
inductive ReadResult where
  | ok (chunk : DataBuf)
  | wouldBlock
  | err
deriving Repr, DecidableEq

/-- The loop body of `NonblockingRead::read_until_block` (`poller.rs`
lines 52-80), driven by a script of read results.  `data` is the
accumulator `let mut data = DataBuf::new()`.  `none` means the script
was exhausted without the loop terminating (a real nonblocking fd always
eventually yields `WouldBlock`, so complete scripts end the loop). -/
def readUntilBlockLoop : List ReadResult → DataBuf → Option (Except Unit DataBuf)
  | [], _ => none
  | ReadResult.ok chunk :: rest, data =>
      -- `Ok(0)` arm: warn! and break, returning data accumulated so far.
      if chunk.length = 0 then some (Except.ok data)
      -- `Ok(count)` arm: `data.extend_from_slice(&buffer[0..count])`.
      else readUntilBlockLoop rest (data ++ chunk)
  | ReadResult.wouldBlock :: _, data => some (Except.ok data)
  | ReadResult.err :: _, _ => some (Except.error ())

/-- `File::read_until_block` (`poller.rs` lines 52-80). -/
def read_until_block (reads : List ReadResult) : Option (Except Unit DataBuf) :=
  readUntilBlockLoop reads []

/-- `struct PollInterest` (`poller.rs` lines 21-27); the owned `File` is
its raw file descriptor. -/
structure PollInterest where
  file : Nat
  read : Bool
  write : Bool
deriving Repr, DecidableEq

/-- The operating-system readiness facility (`polling::Poller`) as seen by
this program: the multiset of currently registered file descriptors plus
logs of the successful `add` calls and of every `delete` call issued. -/
structure OsPoller where
  registered : List Nat
  addCalls : List Nat
  deleteCalls : List Nat
deriving Repr, DecidableEq

/-- `polling::Poller::new()` (fresh poller, nothing registered). -/
def OsPoller.new : OsPoller := ⟨[], [], []⟩

/-- `poller.add(raw_fd, interest)`: whether the OS accepts the registration
is supplied by the caller via `fails`; on success the fd is registered. -/
def OsPoller.add (p : OsPoller) (fd : Nat) (fails : Bool) : OsPoller × Bool :=
  if fails then (p, false)
  else ({ p with registered := p.registered ++ [fd],
                 addCalls := p.addCalls ++ [fd] }, true)

/-- `poller.delete(source)`: the call is always logged; it succeeds exactly
when the fd is currently registered, and removes one registration. -/
def OsPoller.delete (p : OsPoller) (fd : Nat) : OsPoller × Bool :=
  ({ p with registered := p.registered.erase fd,
            deleteCalls := p.deleteCalls ++ [fd] },
   p.registered.contains fd)

/-- `Poller::cleanup` (`poller.rs` lines 177-187): delete every source,
logging (ignoring) each delete failure — errors are never propagated. -/
def Poller.cleanup (p : OsPoller) (sources : List Nat) : OsPoller :=
  sources.foldl (fun acc fd => (acc.delete fd).1) p

/-- The `for` loop of `Poller::with_sources` (`poller.rs` lines 103-119).
`fds` is the `Vec<File>` accumulator; note the source pushes the file
*before* attempting `poller.add`, so on an add failure `cleanup` runs on
every file pushed so far (including the one whose add failed), and then
panics — modelled as `Except.error ()`. -/
def withSourcesLoop (addFails : Nat → Bool) :
    OsPoller → List PollInterest → List Nat → OsPoller × Except Unit (List Nat)
  | p, [], fds => (p, Except.ok fds)
  | p, pi :: rest, fds =>
      let fds' := fds ++ [pi.file]
      let res := p.add pi.file (addFails pi.file)
      if res.2 then withSourcesLoop addFails res.1 rest fds'
      else (Poller.cleanup res.1 fds', Except.error ())

/-- `Poller::with_sources` (`poller.rs` lines 93-125).  Returns the final
OS poller state and either the registered fd vector (`Ok`) or the
panic-after-cleanup outcome (`Err`). -/
def Poller.with_sources (addFails : Nat → Bool) (sources : List PollInterest) :
    OsPoller × Except Unit (List Nat) :=
  withSourcesLoop addFails OsPoller.new sources []

/-- `std::ops::ControlFlow<()>` as returned by the handler closure. -/
inductive MFlow where
  | Continue
  | Break
deriving Repr, DecidableEq

deriving instance DecidableEq for Except

/-- One readiness event delivered by `self.inner.wait` together with the
outcomes of the OS interactions performed while dispatching it:
`key` is `event.key` (the raw fd), `readRes` the result of
`matching_file.read_until_block()`, and `modifyOk` whether the re-arming
`self.inner.modify(matching_file, event)` call succeeds. -/
structure EventScript where
  key : Nat
  readRes : Except Unit DataBuf
  modifyOk : Bool
deriving Repr, DecidableEq

/-- How the inner `for event in events.iter()` loop of `Poller::each_with`
(`poller.rs` lines 145-165) ends. -/
inductive BatchStep where
  | finished   -- all events of the batch dispatched, continue the outer loop
  | brk        -- handler returned `ControlFlow::Break`: `break 'outer`
  | ioErr      -- a `?` fired (read error or modify error): early return
  | noSource   -- `unreachable!()`: event key matched no registered source
deriving Repr, DecidableEq

/-- The inner `for` loop over one readiness batch, returning how it ended
and the list of `(key, data)` arguments passed to the handler `f`. -/
def runBatch (f : Nat → DataBuf → MFlow) (srcs : List Nat) :
    List EventScript → BatchStep × List (Nat × DataBuf)
  | [] => (BatchStep.finished, [])
  | ev :: rest =>
    if srcs.contains ev.key then
      match ev.readRes with
      | Except.error _ => (BatchStep.ioErr, [])
      | Except.ok data =>
        match f ev.key data with
        | MFlow.Break => (BatchStep.brk, [(ev.key, data)])
        | MFlow.Continue =>
          if ev.modifyOk then
            let r := runBatch f srcs rest
            (r.1, (ev.key, data) :: r.2)
          else (BatchStep.ioErr, [(ev.key, data)])
    else (BatchStep.noSource, [])

/-- How a run of `Poller::each_with` ends. -/
inductive LoopExit where
  | stopped    -- handler requested stop; cleanup ran; `Ok(())`
  | errored    -- a `?` propagated an I/O error (early return, line 155/164)
  | blocked    -- readiness batches exhausted: parked forever in `wait`
  | panicked   -- `unreachable!()` fired
deriving Repr, DecidableEq

/-- The `'outer: loop` of `Poller::each_with` (`poller.rs` lines 135-171),
driven by the list of readiness batches the OS delivers (an empty list
means `wait` never returns again).  Note that `Self::cleanup` runs only
after `break 'outer`; the `?`-propagated error path returns without it.
Result: (exit, final OS poller state, handler invocations). -/
def eachWithLoop (f : Nat → DataBuf → MFlow) (srcs : List Nat) :
    OsPoller → List (List EventScript) → LoopExit × OsPoller × List (Nat × DataBuf)
  | p, [] => (LoopExit.blocked, p, [])
  | p, batch :: more =>
    match runBatch f srcs batch with
    | (BatchStep.finished, calls) =>
        let r := eachWithLoop f srcs p more
        (r.1, r.2.1, calls ++ r.2.2)
    | (BatchStep.brk, calls) => (LoopExit.stopped, Poller.cleanup p srcs, calls)
    | (BatchStep.ioErr, calls) => (LoopExit.errored, p, calls)
    | (BatchStep.noSource, calls) => (LoopExit.panicked, p, calls)

/-- `Poller::each_with` (`poller.rs` lines 135-171).  `p` is the OS poller
built by `with_sources`, `srcs` the `self.sources` fd vector. -/
def Poller.each_with (f : Nat → DataBuf → MFlow) (p : OsPoller) (srcs : List Nat)
    (batches : List (List EventScript)) : LoopExit × OsPoller × List (Nat × DataBuf) :=
  eachWithLoop f srcs p batches

/-- A POSIX signal as used for diagnostics: `signal.as_str()` and
`signal as i32` (`parent.rs` lines 132-133, 137-138). -/
structure SigInfo where
  name : String
  number : Int
deriving Repr, DecidableEq

/-- `nix::sys::wait::WaitStatus` as matched in `parent.rs` lines 126-144:
the three shapes the code destructures, plus `OtherStatus` for every other
variant (`Continued`, `StillAlive`, ptrace events), carrying its debug
rendering `{other:?}`. -/
inductive WaitStatus where
  | Exited (pid : Nat) (exit_code : Int)
  | Signaled (pid : Nat) (signal : SigInfo) (dumped : Bool)
  | Stopped (pid : Nat) (signal : SigInfo)
  | OtherStatus (debugStr : String)
deriving Repr, DecidableEq

/-- The `eprintln!` diagnostics produced by the `match status` in
`parent_process` (`parent.rs` lines 125-144), one list entry per line
printed to the error stream. -/
def statusLines : WaitStatus → List String
  | WaitStatus.Exited _ code =>
      if code ≠ 0 then
        ["floatty: child exited with non-zero exit code " ++ toString code]
      else []
  | WaitStatus.Signaled _ sig _ =>
      ["floatty: child killed by " ++ sig.name ++ " (signal " ++ toString sig.number ++ ")"]
  | WaitStatus.Stopped _ sig =>
      ["floatty: child stopped by " ++ sig.name ++ " (signal " ++ toString sig.number ++ ")"]
  | WaitStatus.OtherStatus dbg =>
      ["floatty: unknown waitpid() status " ++ dbg ++ " (floatty bug)"]

/-- Observable actions of `parent_process` in order. -/
inductive ParentAction where
  | runLoop                 -- `let result = parent_loop(pty_file);`
  | callWaitpid             -- `nix::sys::wait::waitpid(child, None)`
  | printErr (line : String)
deriving Repr, DecidableEq

/-- `parent_process` (`parent.rs` lines 110-147) after the fork: the loop's
outcome `loopRes` is bound (never `?`-ed), then `waitpid` is always called;
a `waitpid` failure is propagated by `?` (returning that error), otherwise
the status is classified and the saved `result` is returned.  Result:
(ordered action trace, value returned to `main`). -/
def parent_process (loopRes : Except String Unit) (waitRes : Except String WaitStatus) :
    List ParentAction × Except String Unit :=
  match waitRes with
  | Except.error e => ([ParentAction.runLoop, ParentAction.callWaitpid], Except.error e)
  | Except.ok status =>
      ([ParentAction.runLoop, ParentAction.callWaitpid]
         ++ (statusLines status).map ParentAction.printErr,
       loopRes)

/-- The process exit code produced by `main` (`main.rs` lines 164-172):
`parent_process(..)?` followed by `Ok(ExitCode::SUCCESS)`; a propagated
error exits nonzero through miette's top-level reporting (`ExitCode::FAILURE`). -/
def supervisorExitCode (loopRes : Except String Unit)
    (waitRes : Except String WaitStatus) : Nat :=
  match (parent_process loopRes waitRes).2 with
  | Except.ok _ => 0
  | Except.error _ => 1

/-- The signal-mask system calls this program can issue.  `sigprocmask`'s
`how` argument is one of `SIG_BLOCK`/`SIG_UNBLOCK`/`SIG_SETMASK`; the
program only ever issues `SIG_BLOCK` (`parent.rs` line 51), and
`signalfdNew` is `signalfd(-1, set, SFD_NONBLOCK)` (`parent.rs` line 57).
Signals are their numbers. -/
inductive SigOp where
  | maskBlock (signals : List Nat)
  | maskUnblock (signals : List Nat)
  | maskSet (signals : List Nat)
  | signalfdNew (signals : List Nat)
deriving Repr, DecidableEq

/-- `handle_signals_as_file` (`parent.rs` lines 44-64): first
`sigprocmask(SIG_BLOCK, set)` (failure propagates before `signalfd` is
reached), then `signalfd` on the same set (failure propagates with the
signals left blocked — no restoration path).  Result: (system calls issued
in order, outcome). -/
def handle_signals_as_file (signals : List Nat) (maskFails sfdFails : Bool) :
    List SigOp × Except Unit Unit :=
  if maskFails then ([SigOp.maskBlock signals], Except.error ())
  else if sfdFails then
    ([SigOp.maskBlock signals, SigOp.signalfdNew signals], Except.error ())
  else
    ([SigOp.maskBlock signals, SigOp.signalfdNew signals], Except.ok ())

/-- `libc::SIGCHLD` on Linux. -/
def SIGCHLD : Nat := 17

/-- `libc::SIGWINCH` on Linux. -/
def SIGWINCH : Nat := 28

/-- All signal-mask system calls issued by the supervising process, in
order: `parent_loop` (`parent.rs` lines 66-108) converts SIGCHLD and then
SIGWINCH via `handle_signals_as_file`; these two call sites (`parent.rs`
lines 71, 76) are the only uses of `sigprocmask`/`signalfd` in the whole
crate, and no code after them touches the signal mask. -/
def parent_loop_sigops (chldMask chldSfd winMask winSfd : Bool) : List SigOp :=
  let r1 := handle_signals_as_file [SIGCHLD] chldMask chldSfd
  match r1.2 with
  | Except.error _ => r1.1
  | Except.ok _ =>
      let r2 := handle_signals_as_file [SIGWINCH] winMask winSfd
      r1.1 ++ r2.1

/-- The mask discipline of the claim, checked over an operation trace:
every `signalfd` conversion is preceded by a `SIG_BLOCK` of the same set,
and no unblocking operation (`SIG_UNBLOCK`, or any `SIG_SETMASK`) ever
appears. -/
def maskDiscipline : List (List Nat) → List SigOp → Bool
  | _, [] => true
  | blocked, SigOp.maskBlock s :: rest => maskDiscipline (s :: blocked) rest
  | _, SigOp.maskUnblock _ :: _ => false
  | _, SigOp.maskSet _ :: _ => false
  | blocked, SigOp.signalfdNew s :: rest =>
      blocked.contains s && maskDiscipline blocked rest

/-- How `handle_args` (`main.rs` lines 55-114) returns: a panic (an
out-of-bounds slice or `unreachable!()`), an `Err(ExitCode)` early exit
with the given code, or `Ok(HandledArgs)` with the resolved program and
the remaining arguments. -/
inductive ArgsOutcome where
  | panicked
  | earlyExit (code : Nat)
  | ok (prog : String) (args : List String)
deriving Repr, DecidableEq

/-- `OsStr::new("-").as_encoded_bytes()` (`main.rs` line 82); arguments are
modelled as `String`s and their encoded bytes as the character list. -/
def hyphen_minus : List Char := ("-").data

/-- `handle_args` (`main.rs` lines 55-114).  `whichFn` models the external
`which::which` executable lookup (`none` = lookup failed); `argv` is the
full `env::args_os()` list including `argv[0]`.  Result: (diagnostics
printed to the error stream, outcome).  Faithful points: the missing
`argv[0]` case is `unreachable!()`; a missing program prints a diagnostic
(plus usage on stdout, not modelled) and exits 255; the slice
`first.as_encoded_bytes()[0..1]` is taken before any emptiness check and
panics when `first` is empty; `--help`/`--version` print to stdout and
exit 0; any other `-`-leading argument gets an unrecognized-option
diagnostic and then falls through to the program lookup
`which::which(&first).unwrap_or_else(|_| PathBuf::from(first))`. -/
def handle_args (whichFn : String → Option String) (argv : List String) :
    List String × ArgsOutcome :=
  match argv with
  | [] => ([], ArgsOutcome.panicked)
  | _argv0 :: [] =>
      (["floatty: error: the following required arguments were not provided:\n  <program>"],
       ArgsOutcome.earlyExit 255)
  | _argv0 :: first :: args =>
      if first.data.length < hyphen_minus.length then ([], ArgsOutcome.panicked)
      else
        let firstBytes := first.data.take hyphen_minus.length
        let step : List String × Option Nat :=
          if firstBytes = hyphen_minus then
            if first = "--help" then ([], some 0)
            else if first = "--version" then ([], some 0)
            else
              (["floatty: unrecognized option \x27" ++ first
                  ++ "\x27\nTry \x27floatty --help\x27 for more information"],
               none)
          else ([], none)
        match step with
        | (diag, some code) => (diag, ArgsOutcome.earlyExit code)
        | (diag, none) => (diag, ArgsOutcome.ok ((whichFn first).getD first) args)

/-! ## Helper lemmas -/

theorem readUntilBlockLoop_append (chunks : List DataBuf) (s : List ReadResult)
    (acc : DataBuf) (hne : ∀ c ∈ chunks, c ≠ []) :
    readUntilBlockLoop (chunks.map ReadResult.ok ++ s) acc =
      readUntilBlockLoop s (acc ++ chunks.flatten) := by
  induction chunks generalizing acc with
  | nil => simp
  | cons c cs ih =>
      have hc : ¬ c.length = 0 := by
        simpa [List.length_eq_zero] using hne c (List.mem_cons_self c cs)
      simp only [List.map_cons, List.cons_append, readUntilBlockLoop, if_neg hc, List.append_eq]
      rw [ih (acc ++ c) (fun x hx => hne x (List.mem_cons_of_mem _ hx))]
      simp [List.append_assoc]

/-! ## Claims -/

/-- C4: draining a source returns the same concatenated byte sequence for
every partition of its pending bytes into successful reads (each at most
`BUFFER_SIZE` bytes, the sequence ending in a would-block result) — the
result is always the concatenation `chunks.flatten`, independent of the
chunking — and a zero-byte read ends the drain, returning the bytes
accumulated so far rather than an end-of-stream error. -/
theorem C4_drain_chunking (chunks : List DataBuf) (rest : List ReadResult)
    (hne : ∀ c ∈ chunks, c ≠ []) (hle : ∀ c ∈ chunks, c.length ≤ BUFFER_SIZE) :
    read_until_block (chunks.map ReadResult.ok ++ [ReadResult.wouldBlock]) =
      some (Except.ok chunks.flatten) ∧
    read_until_block (chunks.map ReadResult.ok ++ ReadResult.ok [] :: rest) =
      some (Except.ok chunks.flatten) := by
  unfold read_until_block
  rw [readUntilBlockLoop_append chunks _ [] hne,
      readUntilBlockLoop_append chunks _ [] hne]
  simp [readUntilBlockLoop]

theorem C4_witness :
    read_until_block (([[1, 2], [3]] : List DataBuf).map ReadResult.ok
        ++ [ReadResult.wouldBlock]) =
      some (Except.ok ([[1, 2], [3]] : List DataBuf).flatten) ∧
    read_until_block (([[1, 2], [3]] : List DataBuf).map ReadResult.ok
        ++ ReadResult.ok [] :: [ReadResult.err]) =
      some (Except.ok ([[1, 2], [3]] : List DataBuf).flatten) :=
  C4_drain_chunking [[1, 2], [3]] [ReadResult.err] (by decide) (by decide)

/-- C7: in every run of the Signal-to-Event Bridge (over all four failure
configurations of the two conversions), each `signalfd` conversion is
preceded by a `sigprocmask(SIG_BLOCK)` of the same signal set — never the
reverse — and no unblocking mask operation ever occurs in the program's
signal-mask trace, so converted signals stay blocked for the process's
remaining lifetime. -/
theorem C7_mask_ordering :
    ∀ (chldMask chldSfd winMask winSfd : Bool),
      maskDiscipline [] (parent_loop_sigops chldMask chldSfd winMask winSfd) = true := by
  decide

/-- C10: when the first command-line argument is the empty string,
`handle_args` panics: it takes the byte slice `[0..1]` of the argument
before any emptiness check, an out-of-bounds index. -/
theorem C10_empty_arg_panics :
    handle_args (fun _ => none) ["floatty", ""] = ([], ArgsOutcome.panicked) := rfl

/-- C5: for every outcome of the parent's event loop and of `waitpid`,
`parent_process` performs the blocking reap right after the loop (the
trace always starts `runLoop, callWaitpid`), and whenever the reap
completes (waitpid returns a status), the loop's own result — in
particular its error, if it failed — is what is returned to the caller. -/
theorem C5_reap_always (loopRes : Except String Unit) (waitRes : Except String WaitStatus) :
    (parent_process loopRes waitRes).1.take 2 =
      [ParentAction.runLoop, ParentAction.callWaitpid] ∧
    (∀ s, waitRes = Except.ok s → (parent_process loopRes waitRes).2 = loopRes) := by
  cases waitRes <;> simp [parent_process]

theorem C5_witness :
    (parent_process (Except.error "loop failed") (Except.ok (WaitStatus.Exited 1 0))).1.take 2 =
      [ParentAction.runLoop, ParentAction.callWaitpid] ∧
    (∀ s, (Except.ok (WaitStatus.Exited 1 0) : Except String WaitStatus) = Except.ok s →
      (parent_process (Except.error "loop failed")
        (Except.ok (WaitStatus.Exited 1 0))).2 = Except.error "loop failed") :=
  C5_reap_always (Except.error "loop failed") (Except.ok (WaitStatus.Exited 1 0))

/-- C2 counterexample: constructing the Multiplexer with an empty set of
sources does NOT fail — `with_sources` returns `Ok` with an empty source
vector (no precondition check exists). -/
theorem C2_counterexample :
    (Poller.with_sources (fun _ => false) []).2 = Except.ok [] := rfl

/-- C2 amended: constructing the Multiplexer with zero sources succeeds
(for any behaviour of the registration facility), and the subsequent
event loop then blocks forever in the readiness wait (no readiness batch
is ever delivered for zero registered sources, and with no batches the
loop parks in `wait`). -/
theorem C2_amended_empty_sources (addFails : Nat → Bool) (f : Nat → DataBuf → MFlow) :
    (Poller.with_sources addFails []).2 = Except.ok [] ∧
    (Poller.each_with f (Poller.with_sources addFails []).1 [] []).1 =
      LoopExit.blocked :=
  ⟨rfl, rfl⟩

theorem cleanup_deleteCalls (l : List Nat) (p : OsPoller) :
    (Poller.cleanup p l).deleteCalls = p.deleteCalls ++ l := by
  induction l generalizing p with
  | nil => simp [Poller.cleanup]
  | cons a t ih =>
      show (Poller.cleanup (p.delete a).1 t).deleteCalls = _
      rw [ih]
      simp [OsPoller.delete]

theorem cleanup_addCalls (l : List Nat) (p : OsPoller) :
    (Poller.cleanup p l).addCalls = p.addCalls := by
  induction l generalizing p with
  | nil => rfl
  | cons a t ih =>
      show (Poller.cleanup (p.delete a).1 t).addCalls = _
      rw [ih]
      rfl

theorem cleanup_registered_nil (l : List Nat) (p : OsPoller)
    (h : (p.registered : Multiset Nat) ≤ (l : Multiset Nat)) :
    (Poller.cleanup p l).registered = [] := by
  induction l generalizing p with
  | nil =>
      have h0 : (p.registered : Multiset Nat) = 0 := le_antisymm (by simpa using h) (zero_le _)
      have : p.registered = [] := by simpa using h0
      simp [Poller.cleanup, this]
  | cons a t ih =>
      show (Poller.cleanup (p.delete a).1 t).registered = []
      apply ih
      have h2 : ((p.registered : Multiset Nat)).erase a ≤
          ((a :: t : List Nat) : Multiset Nat).erase a :=
        Multiset.erase_le_erase a h
      rw [← Multiset.cons_coe, Multiset.erase_cons_head] at h2
      simpa [OsPoller.delete, Multiset.coe_erase] using h2

/-- C1 counterexample: a run over one registered source in which the drain
propagates an I/O error — the loop exits by error and performs zero
deregistrations, not one. -/
theorem C1_counterexample :
    (Poller.each_with (fun _ _ => MFlow.Continue)
        (Poller.with_sources (fun _ => false) [⟨5, true, false⟩]).1 [5]
        [[⟨5, Except.error (), true⟩]]).1 = LoopExit.errored ∧
    (Poller.each_with (fun _ _ => MFlow.Continue)
        (Poller.with_sources (fun _ => false) [⟨5, true, false⟩]).1 [5]
        [[⟨5, Except.error (), true⟩]]).2.1.deleteCalls = [] := by
  decide

/-- C1 amended: when the loop exits because the handler requested stop,
every one of the N registered sources is deregistered exactly once (delete
failures being logged, never changing the outcome, which stays `stopped`);
but when the loop exits because an I/O error is propagated, `each_with`
returns early and performs no deregistration at all. -/
theorem C1_stop_exit_cleanup (f : Nat → DataBuf → MFlow) (srcs : List Nat)
    (batches : List (List EventScript)) (p : OsPoller)
    (hreg : p.registered = srcs) (hdel : p.deleteCalls = []) (hnd : srcs.Nodup) :
    ((Poller.each_with f p srcs batches).1 = LoopExit.stopped →
       (∀ fd ∈ srcs, (Poller.each_with f p srcs batches).2.1.deleteCalls.count fd = 1) ∧
       (Poller.each_with f p srcs batches).2.1.registered = []) ∧
    ((Poller.each_with f p srcs batches).1 = LoopExit.errored →
       (Poller.each_with f p srcs batches).2.1.deleteCalls = []) := by
  unfold Poller.each_with
  induction batches with
  | nil => simp [eachWithLoop]
  | cons batch more ih =>
      rcases hrb : runBatch f srcs batch with ⟨step, calls⟩
      cases step with
      | finished => simpa [eachWithLoop, hrb] using ih
      | brk =>
          simp only [eachWithLoop, hrb]
          constructor
          · intro _
            constructor
            · intro fd hfd
              rw [cleanup_deleteCalls, hdel, List.nil_append]
              exact List.count_eq_one_of_mem hnd hfd
            · exact cleanup_registered_nil srcs p (by rw [hreg])
          · intro h
            exact absurd h (by decide)
      | ioErr =>
          simp only [eachWithLoop, hrb]
          exact ⟨fun h => absurd h (by decide), fun _ => hdel⟩
      | noSource =>
          simp only [eachWithLoop, hrb]
          exact ⟨fun h => absurd h (by decide), fun h => absurd h (by decide)⟩

theorem C1_witness :
    ((Poller.each_with (fun _ _ => MFlow.Break) ⟨[7], [7], []⟩ [7]
        [[⟨7, Except.ok [9], true⟩]]).1 = LoopExit.stopped →
       (∀ fd ∈ [7], (Poller.each_with (fun _ _ => MFlow.Break) ⟨[7], [7], []⟩ [7]
          [[⟨7, Except.ok [9], true⟩]]).2.1.deleteCalls.count fd = 1) ∧
       (Poller.each_with (fun _ _ => MFlow.Break) ⟨[7], [7], []⟩ [7]
          [[⟨7, Except.ok [9], true⟩]]).2.1.registered = []) ∧
    ((Poller.each_with (fun _ _ => MFlow.Break) ⟨[7], [7], []⟩ [7]
        [[⟨7, Except.ok [9], true⟩]]).1 = LoopExit.errored →
       (Poller.each_with (fun _ _ => MFlow.Break) ⟨[7], [7], []⟩ [7]
          [[⟨7, Except.ok [9], true⟩]]).2.1.deleteCalls = []) :=
  C1_stop_exit_cleanup (fun _ _ => MFlow.Break) [7] [[⟨7, Except.ok [9], true⟩]]
    ⟨[7], [7], []⟩ rfl rfl (by decide)

theorem runBatch_break_result (f : Nat → DataBuf → MFlow) (srcs : List Nat)
    (done : List EventScript) (ev : EventScript) (post : List EventScript)
    (hdone : ∀ e ∈ done, srcs.contains e.key = true ∧ e.modifyOk = true ∧
       ∃ d, e.readRes = Except.ok d ∧ f e.key d = MFlow.Continue)
    (hev : srcs.contains ev.key = true) (d : DataBuf)
    (hread : ev.readRes = Except.ok d) (hbrk : f ev.key d = MFlow.Break) :
    ∃ calls, runBatch f srcs (done ++ ev :: post) = (BatchStep.brk, calls) ∧
      runBatch f srcs (done ++ [ev]) = (BatchStep.brk, calls) := by
  induction done with
  | nil =>
      refine ⟨[(ev.key, d)], ?_, ?_⟩ <;>
        simp [runBatch, hev, hread, hbrk] <;> simpa using hev
  | cons e t ih =>
      obtain ⟨hk, hm, d', hr, hc⟩ := hdone e (List.mem_cons_self e t)
      obtain ⟨calls, h1, h2⟩ := ih (fun x hx => hdone x (List.mem_cons_of_mem _ hx))
      refine ⟨(e.key, d') :: calls, ?_, ?_⟩ <;>
        simp [runBatch, hk, hm, hr, hc, h1, h2] <;> simpa using hk

/-- C3 counterexample: a readiness batch with two ready sources (keys 5
and 6) in which the handler stops on the first — the loop exits as
stopped but the handler is invoked only for key 5: the remaining ready
source of the batch is never processed. -/
theorem C3_counterexample :
    (Poller.each_with (fun k _ => if k = 5 then MFlow.Break else MFlow.Continue)
        (Poller.with_sources (fun _ => false) [⟨5, true, false⟩, ⟨6, true, false⟩]).1
        [5, 6]
        [[⟨5, Except.ok [1], true⟩, ⟨6, Except.ok [2], true⟩]]).1 = LoopExit.stopped ∧
    (Poller.each_with (fun k _ => if k = 5 then MFlow.Break else MFlow.Continue)
        (Poller.with_sources (fun _ => false) [⟨5, true, false⟩, ⟨6, true, false⟩]).1
        [5, 6]
        [[⟨5, Except.ok [1], true⟩, ⟨6, Except.ok [2], true⟩]]).2.2 = [(5, [1])] := by
  decide

/-- C3 amended: when the handler returns stop for a ready source, the
Multiplexer exits the loop immediately — the remaining ready sources of
the current batch (and all later batches) are skipped, never drained or
dispatched: the whole run is identical to one whose batch ends at the
stopping event.  Sources are still deregistered on this stop exit. -/
theorem C3_midbatch_abort (f : Nat → DataBuf → MFlow) (srcs : List Nat) (p : OsPoller)
    (done : List EventScript) (ev : EventScript) (post : List EventScript)
    (more : List (List EventScript))
    (hdone : ∀ e ∈ done, srcs.contains e.key = true ∧ e.modifyOk = true ∧
       ∃ d, e.readRes = Except.ok d ∧ f e.key d = MFlow.Continue)
    (hev : srcs.contains ev.key = true) (d : DataBuf)
    (hread : ev.readRes = Except.ok d) (hbrk : f ev.key d = MFlow.Break) :
    Poller.each_with f p srcs ((done ++ ev :: post) :: more) =
      Poller.each_with f p srcs [done ++ [ev]] ∧
    (Poller.each_with f p srcs ((done ++ ev :: post) :: more)).1 = LoopExit.stopped := by
  obtain ⟨calls, h1, h2⟩ :=
    runBatch_break_result f srcs done ev post hdone hev d hread hbrk
  constructor
  · show eachWithLoop f srcs p _ = eachWithLoop f srcs p _
    simp [eachWithLoop, h1, h2]
  · show (eachWithLoop f srcs p _).1 = _
    simp [eachWithLoop, h1]

theorem C3_witness :
    Poller.each_with (fun k _ => if k = 5 then MFlow.Break else MFlow.Continue)
        ⟨[5, 6], [5, 6], []⟩ [5, 6]
        (([⟨6, Except.ok [2], true⟩] ++ ⟨5, Except.ok [1], true⟩ ::
            [⟨6, Except.ok [3], true⟩]) :: [[⟨6, Except.ok [4], true⟩]]) =
      Poller.each_with (fun k _ => if k = 5 then MFlow.Break else MFlow.Continue)
        ⟨[5, 6], [5, 6], []⟩ [5, 6]
        [[⟨6, Except.ok [2], true⟩] ++ [⟨5, Except.ok [1], true⟩]] ∧
    (Poller.each_with (fun k _ => if k = 5 then MFlow.Break else MFlow.Continue)
        ⟨[5, 6], [5, 6], []⟩ [5, 6]
        (([⟨6, Except.ok [2], true⟩] ++ ⟨5, Except.ok [1], true⟩ ::
            [⟨6, Except.ok [3], true⟩]) :: [[⟨6, Except.ok [4], true⟩]])).1 =
      LoopExit.stopped :=
  C3_midbatch_abort (fun k _ => if k = 5 then MFlow.Break else MFlow.Continue)
    [5, 6] ⟨[5, 6], [5, 6], []⟩
    [⟨6, Except.ok [2], true⟩] ⟨5, Except.ok [1], true⟩
    [⟨6, Except.ok [3], true⟩] [[⟨6, Except.ok [4], true⟩]]
    (by
      intro e he
      rw [List.mem_singleton] at he
      subst he
      exact ⟨rfl, rfl, [2], rfl, rfl⟩)
    rfl [1] rfl rfl

theorem withSourcesLoop_error_invariant (addFails : Nat → Bool)
    (sources : List PollInterest) :
    ∀ (p : OsPoller) (fds : List Nat),
      (p.registered : Multiset Nat) ≤ (fds : Multiset Nat) →
      (∀ fd ∈ p.addCalls, fd ∈ fds) →
      p.deleteCalls = [] →
      (withSourcesLoop addFails p sources fds).2 = Except.error () →
      (withSourcesLoop addFails p sources fds).1.registered = [] ∧
      ∀ fd ∈ (withSourcesLoop addFails p sources fds).1.addCalls,
        fd ∈ (withSourcesLoop addFails p sources fds).1.deleteCalls := by
  induction sources with
  | nil =>
      intro p fds _ _ _ herr
      exact absurd herr (by simp [withSourcesLoop])
  | cons pi rest ih =>
      intro p fds hsub hadd hdel herr
      by_cases haf : addFails pi.file
      · -- registration of `pi.file` fails: cleanup of all pushed fds, then panic
        have hres : withSourcesLoop addFails p (pi :: rest) fds =
            (Poller.cleanup p (fds ++ [pi.file]), Except.error ()) := by
          simp [withSourcesLoop, OsPoller.add, haf]
        rw [hres]
        constructor
        · apply cleanup_registered_nil
          calc (p.registered : Multiset Nat) ≤ (fds : Multiset Nat) := hsub
            _ ≤ (fds : Multiset Nat) + ([pi.file] : List Nat) := Multiset.le_add_right _ _
            _ = ((fds ++ [pi.file] : List Nat) : Multiset Nat) := Multiset.coe_add _ _
        · intro fd hfd
          rw [cleanup_addCalls] at hfd
          rw [cleanup_deleteCalls, hdel, List.nil_append]
          exact List.mem_append_left _ (hadd fd hfd)
      · -- registration succeeds: continue the loop on the extended state
        have hres : withSourcesLoop addFails p (pi :: rest) fds =
            withSourcesLoop addFails
              { p with registered := p.registered ++ [pi.file],
                       addCalls := p.addCalls ++ [pi.file] }
              rest (fds ++ [pi.file]) := by
          simp [withSourcesLoop, OsPoller.add, haf]
        rw [hres] at herr ⊢
        refine ih _ _ ?_ ?_ hdel herr
        · calc ((p.registered ++ [pi.file] : List Nat) : Multiset Nat)
              = (p.registered : Multiset Nat) + ([pi.file] : List Nat) :=
                (Multiset.coe_add _ _).symm
            _ ≤ (fds : Multiset Nat) + ([pi.file] : List Nat) :=
                add_le_add_right hsub _
            _ = ((fds ++ [pi.file] : List Nat) : Multiset Nat) := Multiset.coe_add _ _
        · intro fd hfd
          rcases List.mem_append.mp hfd with h | h
          · exact List.mem_append_left _ (hadd fd h)
          · exact List.mem_append_right _ h

/-- C8: if registering any source with the OS readiness facility fails
partway through `with_sources`, every source registered before the failure
is deregistered before the setup failure is surfaced: the final OS state
has no remaining registrations, and every successfully added fd has a
matching delete call. -/
theorem C8_no_leaked_registrations (addFails : Nat → Bool) (sources : List PollInterest)
    (herr : (Poller.with_sources addFails sources).2 = Except.error ()) :
    (Poller.with_sources addFails sources).1.registered = [] ∧
    ∀ fd ∈ (Poller.with_sources addFails sources).1.addCalls,
      fd ∈ (Poller.with_sources addFails sources).1.deleteCalls :=
  withSourcesLoop_error_invariant addFails sources OsPoller.new []
    (by simp [OsPoller.new]) (by simp [OsPoller.new]) rfl herr

theorem C8_witness :
    (Poller.with_sources (fun fd => fd == 6)
        [⟨5, true, false⟩, ⟨6, true, false⟩, ⟨7, true, false⟩]).1.registered = [] ∧
    ∀ fd ∈ (Poller.with_sources (fun fd => fd == 6)
        [⟨5, true, false⟩, ⟨6, true, false⟩, ⟨7, true, false⟩]).1.addCalls,
      fd ∈ (Poller.with_sources (fun fd => fd == 6)
        [⟨5, true, false⟩, ⟨6, true, false⟩, ⟨7, true, false⟩]).1.deleteCalls :=
  C8_no_leaked_registrations (fun fd => fd == 6)
    [⟨5, true, false⟩, ⟨6, true, false⟩, ⟨7, true, false⟩] (by decide)

theorem isInfix_segment (a b c : String) : List.IsInfix b.data (a ++ b ++ c).data :=
  ⟨a.data, c.data, by simp [String.data_append]⟩

/-- C6: classification of the reaped status — exit code 0 produces no
diagnostic; a nonzero exit code produces a diagnostic while the supervisor
still completes with exit code 0; a child terminated (or stopped) by a
signal produces a diagnostic containing the signal's name and number; any
other status shape is reported as a floatty bug. -/
theorem C6_status_classification (pid : Nat) (code : Int) (sig : SigInfo)
    (dumped : Bool) (dbg : String) (hc : code ≠ 0) :
    statusLines (WaitStatus.Exited pid 0) = [] ∧
    (statusLines (WaitStatus.Exited pid code) =
       ["floatty: child exited with non-zero exit code " ++ toString code] ∧
     supervisorExitCode (Except.ok ()) (Except.ok (WaitStatus.Exited pid code)) = 0) ∧
    (statusLines (WaitStatus.Signaled pid sig dumped) =
       ["floatty: child killed by " ++ sig.name
          ++ (" (signal " ++ toString sig.number ++ ")")] ∧
     List.IsInfix sig.name.data
       ("floatty: child killed by " ++ sig.name
          ++ (" (signal " ++ toString sig.number ++ ")")).data ∧
     List.IsInfix (toString sig.number).data
       ("floatty: child killed by " ++ sig.name
          ++ (" (signal " ++ toString sig.number ++ ")")).data) ∧
    (statusLines (WaitStatus.Stopped pid sig) =
       ["floatty: child stopped by " ++ sig.name
          ++ (" (signal " ++ toString sig.number ++ ")")] ∧
     List.IsInfix sig.name.data
       ("floatty: child stopped by " ++ sig.name
          ++ (" (signal " ++ toString sig.number ++ ")")).data) ∧
    statusLines (WaitStatus.OtherStatus dbg) =
      ["floatty: unknown waitpid() status " ++ dbg ++ " (floatty bug)"] := by
  refine ⟨by simp [statusLines], ⟨by simp [statusLines, hc], rfl⟩,
    ⟨?_, isInfix_segment _ _ _, ?_⟩, ⟨?_, isInfix_segment _ _ _⟩, ?_⟩
  · simp [statusLines, String.append_assoc]
  · have h := isInfix_segment ("floatty: child killed by " ++ sig.name ++ " (signal ")
      (toString sig.number) (")")
    simpa [String.append_assoc] using h
  · simp [statusLines, String.append_assoc]
  · simp [statusLines]

theorem C6_witness :
    statusLines (WaitStatus.Exited 1 0) = [] ∧
    (statusLines (WaitStatus.Exited 1 7) =
       ["floatty: child exited with non-zero exit code " ++ toString (7 : Int)] ∧
     supervisorExitCode (Except.ok ()) (Except.ok (WaitStatus.Exited 1 7)) = 0) ∧
    (statusLines (WaitStatus.Signaled 1 ⟨"SIGKILL", 9⟩ false) =
       ["floatty: child killed by " ++ ("SIGKILL" : String)
          ++ (" (signal " ++ toString ((9 : Int)) ++ ")")] ∧
     List.IsInfix ("SIGKILL" : String).data
       ("floatty: child killed by " ++ ("SIGKILL" : String)
          ++ (" (signal " ++ toString ((9 : Int)) ++ ")")).data ∧
     List.IsInfix (toString ((9 : Int))).data
       ("floatty: child killed by " ++ ("SIGKILL" : String)
          ++ (" (signal " ++ toString ((9 : Int)) ++ ")")).data) ∧
    (statusLines (WaitStatus.Stopped 1 ⟨"SIGKILL", 9⟩) =
       ["floatty: child stopped by " ++ ("SIGKILL" : String)
          ++ (" (signal " ++ toString ((9 : Int)) ++ ")")] ∧
     List.IsInfix ("SIGKILL" : String).data
       ("floatty: child stopped by " ++ ("SIGKILL" : String)
          ++ (" (signal " ++ toString ((9 : Int)) ++ ")")).data) ∧
    statusLines (WaitStatus.OtherStatus "StillAlive") =
      ["floatty: unknown waitpid() status " ++ "StillAlive" ++ " (floatty bug)"] :=
  C6_status_classification 1 7 ⟨"SIGKILL", 9⟩ false "StillAlive" (by decide)

/-- C9: for every first command-line argument that starts with a hyphen but
is neither `--help` nor `--version`, `handle_args` prints an
unrecognized-option diagnostic and still proceeds: it returns `Ok` with
that same argument (as resolved by the external executable lookup, or
verbatim when the lookup fails) as the program to execute, rather than
exiting with an error. -/
theorem C9_unrecognized_option (whichFn : String → Option String)
    (argv0 first : String) (args : List String)
    (h1 : first.data.take 1 = hyphen_minus)
    (h2 : first ≠ "--help") (h3 : first ≠ "--version") :
    handle_args whichFn (argv0 :: first :: args) =
      (["floatty: unrecognized option \x27" ++ first
          ++ "\x27\nTry \x27floatty --help\x27 for more information"],
       ArgsOutcome.ok ((whichFn first).getD first) args) := by
  have hm : hyphen_minus.length = 1 := rfl
  have hne : first.data ≠ [] := by
    intro h0
    rw [h0] at h1
    exact absurd h1 (by decide)
  have hpos : 0 < first.data.length := List.length_pos.mpr hne
  have hlen : ¬ first.data.length < hyphen_minus.length := by
    rw [hm]; omega
  have htake : first.data.take hyphen_minus.length = hyphen_minus := by
    rw [hm]; exact h1
  simp only [handle_args]
  rw [if_neg hlen]
  simp [htake, h2, h3]

theorem C9_witness :
    handle_args (fun _ => none) ("floatty" :: "-x" :: ["a", "b"]) =
      (["floatty: unrecognized option \x27" ++ "-x"
          ++ "\x27\nTry \x27floatty --help\x27 for more information"],
       ArgsOutcome.ok (((fun (_ : String) => (none : Option String)) "-x").getD "-x")
         ["a", "b"]) :=
  C9_unrecognized_option (fun _ => none) "floatty" "-x" ["a", "b"]
    (by decide) (by decide) (by decide)

end Floatty
